import Mathlib

/-!
Shallow embedding of `src/browser/linux/notification_presenter_linux.cc`
(brightray). The file is a glue layer over libnotify: it detects the
desktop shell (UnityIsRunning), loads libnotify (Init / Create), shows,
cancels and reaps notifications while keeping a GList of live handles
(notifications_) and relaying lifecycle events to a delegate.

External effects are made observable: every call into libnotify / GLib and
every delegate callback is recorded in a trace (`LibCall`), the GList of
handles is a `List Nat`, and the outcomes of the external world (does
`notify_notification_show` set a GError, which libnotify sonames load, what
files the /usr/lib enumeration yields, is the environment variable set) are
inputs to the embedded functions.
-/

namespace brightray

/-- Environment visible to `UnityIsRunning`: whether the
ELECTRON_USE_UBUNTU_NOTIFIER environment variable is set, and the full paths
that enumerating the files directly under /usr/lib yields. -/
structure UnityEnv where
  electron_use_ubuntu_notifier : Bool
  usr_lib_files : List String
  deriving Repr, DecidableEq

/-- The two file-static booleans backing the `UnityIsRunning` cache
(`unity_has_result`, `unity_result` in the source). -/
structure UnityCache where
  unity_has_result : Bool
  unity_result : Bool
  deriving Repr, DecidableEq

/-- Static initialisation of the two booleans: both start false. -/
def initialUnityCache : UnityCache := ⟨false, false⟩

/-- Outcome of one `UnityIsRunning` call: the returned boolean, the updated
statics, and whether the /usr/lib enumeration ran during this call. -/
structure UnityOutcome where
  result : Bool
  cache : UnityCache
  scanned : Bool
  deriving Repr, DecidableEq

/-- Embeds `UnityIsRunning`: return true at once when the environment
variable is set; otherwise return the cached result when one is recorded;
otherwise enumerate /usr/lib, looking for a file whose path starts with
"/usr/lib/libunity-" (the loop breaks at the first hit, which is
`List.any`), record the answer and return it. -/
def UnityIsRunning (env : UnityEnv) (c : UnityCache) : UnityOutcome :=
  if env.electron_use_ubuntu_notifier then
    ⟨true, c, false⟩
  else if c.unity_has_result then
    ⟨c.unity_result, c, false⟩
  else
    let r := env.usr_lib_files.any (fun f => f.startsWith "/usr/lib/libunity-")
    ⟨r, ⟨true, r⟩, true⟩

/-- Runs a sequence of `UnityIsRunning` calls, threading the static cache,
and records the (result, scanned) pair of each call in order. -/
def runUnityCalls : List UnityEnv → UnityCache → List (Bool × Bool)
  | [], _ => []
  | e :: rest, c =>
    let o := UnityIsRunning e c
    (o.result, o.scanned) :: runUnityCalls rest o.cache

/-- Observable external calls made by the presenter: calls into libnotify and
GLib, error logging, and the delegate callbacks it relays. -/
inductive LibCall where
  | notification_new (title body : String)
  | set_data (key : String)
  | signal_connect (sig : String)
  | add_action (action label : String)
  | pixbuf_from_bitmap
  | set_image_from_pixbuf
  | set_timeout (t : Int)
  | notification_show
  | notification_close
  | log_error (context : String)
  | notification_displayed
  | notification_closed
  | notification_click
  | unref_notification
  | unref_pixbuf
  deriving Repr, DecidableEq

/-- Inputs of one `ShowNotification` call: the (already UTF-8 converted)
title and body, whether `SkBitmap::drawsNothing` holds of the icon, the
handle `notify_notification_new` returns, whether `notify_notification_show`
sets a GError, and whether the caller passed a non-null `cancel_callback`
out-parameter. -/
structure ShowInput where
  title : String
  body : String
  icon_draws_nothing : Bool
  new_handle : Nat
  show_error : Bool
  has_cancel_callback_ptr : Bool
  deriving Repr, DecidableEq

/-- Outcome of one `ShowNotification` call: the updated `notifications_`
list, the updated Unity statics, the trace of external calls, whether the
delegate saw `NotificationDisplayed`, and whether a cancel closure was
stored through the out-parameter. -/
structure ShowOutcome where
  notifications : List Nat
  cache : UnityCache
  calls : List LibCall
  displayed_called : Bool
  cancel_installed : Bool
  deriving Repr, DecidableEq

/-- Embeds `NotificationPresenterLinux::ShowNotification`: create the
notification, attach the delegate and the closed-signal handler, add the
"default"/"View" action unless Unity is detected, convert and attach the
icon unless it draws nothing, then show. On a GError from
`notify_notification_show`: log, unref the notification and return without
touching `notifications_` or the delegate. Otherwise append the handle to
`notifications_`, call `NotificationDisplayed`, and store the cancel closure
when the out-parameter is present. -/
def ShowNotification (env : UnityEnv) (c : UnityCache) (s : List Nat)
    (inp : ShowInput) : ShowOutcome :=
  let u := UnityIsRunning env c
  let preCalls : List LibCall :=
    [LibCall.notification_new inp.title inp.body,
     LibCall.set_data "delegate",
     LibCall.signal_connect "closed"]
    ++ (if u.result then [] else [LibCall.add_action "default" "View"])
    ++ (if inp.icon_draws_nothing then []
        else [LibCall.pixbuf_from_bitmap, LibCall.set_image_from_pixbuf,
              LibCall.set_timeout (-1), LibCall.unref_pixbuf])
    ++ [LibCall.notification_show]
  if inp.show_error then
    ⟨s, u.cache,
     preCalls ++ [LibCall.log_error "notify_notification_show",
                  LibCall.unref_notification],
     false, false⟩
  else
    ⟨s ++ [inp.new_handle], u.cache,
     preCalls ++ [LibCall.notification_displayed],
     true, inp.has_cancel_callback_ptr⟩

/-- Embeds `NotificationPresenterLinux::DeleteNotification`: `g_list_remove`
drops the first occurrence of the handle from `notifications_`. -/
def DeleteNotification (s : List Nat) (n : Nat) : List Nat := s.erase n

/-- Outcome of a cancel call or a libnotify signal callback: the updated
`notifications_` list and the trace of external calls. -/
structure CallbackOutcome where
  notifications : List Nat
  calls : List LibCall
  deriving Repr, DecidableEq

/-- Embeds `NotificationPresenterLinux::CancelNotification`: close the
notification, log on a GError (and nothing else: the code does not return
early), then call `NotificationClosed` on the delegate and delete the
handle. -/
def CancelNotification (s : List Nat) (n : Nat) (close_error : Bool) :
    CallbackOutcome :=
  ⟨DeleteNotification s n,
   [LibCall.notification_close]
   ++ (if close_error then [LibCall.log_error "notify_notification_close"]
       else [])
   ++ [LibCall.notification_closed, LibCall.unref_notification]⟩

/-- Embeds `NotificationPresenterLinux::OnNotificationClosed`: a null handle
is a no-op; otherwise relay `NotificationClosed` to the delegate and delete
the handle. -/
def OnNotificationClosed (s : List Nat) (n : Option Nat) : CallbackOutcome :=
  match n with
  | none => ⟨s, []⟩
  | some h =>
    ⟨DeleteNotification s h,
     [LibCall.notification_closed, LibCall.unref_notification]⟩

/-- Embeds `NotificationPresenterLinux::OnNotificationView`: a null handle
is a no-op; otherwise relay `NotificationClick` to the delegate and delete
the handle. The action string is unused. -/
def OnNotificationView (s : List Nat) (n : Option Nat) (_action : String) :
    CallbackOutcome :=
  match n with
  | none => ⟨s, []⟩
  | some h =>
    ⟨DeleteNotification s h,
     [LibCall.notification_click, LibCall.unref_notification]⟩

/-- External world visible to `Init`: which of the three libnotify sonames
`LibraryLoader::Load` would load, whether `notify_is_initted` already holds,
and whether `notify_init` with the application name would succeed. -/
structure LibnotifyEnv where
  load_so4 : Bool
  load_so1 : Bool
  load_so : Bool
  is_initted : Bool
  init_ok : Bool
  deriving Repr, DecidableEq

/-- Library names `Init` attempts to load, in source order, stopping at the
first success (short-circuit of the negated conjunction). -/
def loadAttempts (e : LibnotifyEnv) : List String :=
  if e.load_so4 then ["libnotify.so.4"]
  else if e.load_so1 then ["libnotify.so.4", "libnotify.so.1"]
  else ["libnotify.so.4", "libnotify.so.1", "libnotify.so"]

/-- Outcome of `NotificationPresenterLinux::Init`: success, the load
attempts made, and whether `notify_init` was called. -/
structure InitOutcome where
  ok : Bool
  load_attempts : List String
  init_called : Bool
  deriving Repr, DecidableEq

/-- Embeds `NotificationPresenterLinux::Init`: fail when none of
libnotify.so.4, libnotify.so.1, libnotify.so loads; then succeed when the
library is already initialised, and otherwise exactly when `notify_init`
succeeds. -/
def Init (e : LibnotifyEnv) : InitOutcome :=
  if !e.load_so4 && !e.load_so1 && !e.load_so then
    ⟨false, loadAttempts e, false⟩
  else if e.is_initted then
    ⟨true, loadAttempts e, false⟩
  else
    ⟨e.init_ok, loadAttempts e, true⟩

/-- Embeds `NotificationPresenter::Create`: build a presenter (its
`notifications_` list starts null, that is empty), return it when `Init`
succeeds and nullptr otherwise. -/
def Create (e : LibnotifyEnv) : Option (List Nat) :=
  if (Init e).ok then some [] else none

/-- One presenter operation, for stating how the tracked list evolves. -/
inductive Op where
  | showNote (env : UnityEnv) (c : UnityCache) (inp : ShowInput)
  | cancel (n : Nat) (close_error : Bool)
  | onClosed (n : Option Nat)
  | onView (n : Option Nat) (action : String)
  deriving Repr

/-- Effect of one operation on the `notifications_` list. -/
def step (s : List Nat) : Op → List Nat
  | Op.showNote env c inp => (ShowNotification env c s inp).notifications
  | Op.cancel n e => (CancelNotification s n e).notifications
  | Op.onClosed n => (OnNotificationClosed s n).notifications
  | Op.onView n a => (OnNotificationView s n a).notifications

/-- C6: on its first call (fresh statics), UnityIsRunning returns true when
the ELECTRON_USE_UBUNTU_NOTIFIER environment variable is set, and otherwise
exactly when some file directly under /usr/lib has a path starting with
"/usr/lib/libunity-". -/
theorem unity_first_call_detection (env : UnityEnv) :
    (UnityIsRunning env initialUnityCache).result
      = (env.electron_use_ubuntu_notifier
         || env.usr_lib_files.any (fun f => f.startsWith "/usr/lib/libunity-")) := by
  cases he : env.electron_use_ubuntu_notifier <;>
    simp [UnityIsRunning, initialUnityCache, he]

/-- C10: the closed and view callbacks with a null notification handle are
no-ops: no external call or delegate callback is made and the tracked list
is unchanged. -/
theorem null_handle_callbacks_are_noops (s : List Nat) (a : String) :
    (OnNotificationClosed s none).notifications = s ∧
    (OnNotificationClosed s none).calls = [] ∧
    (OnNotificationView s none a).notifications = s ∧
    (OnNotificationView s none a).calls = [] := by
  exact ⟨rfl, rfl, rfl, rfl⟩

/-- C1: the tracked list changes exactly as the service state does: a
successful show appends the new handle, a failed show leaves the list alone,
and cancellation, the closed callback and the view callback each remove the
named handle; the null-handle callbacks change nothing. -/
theorem tracked_list_mirrors_service (s : List Nat) (op : Op) :
    step s op =
      match op with
      | Op.showNote _ _ inp =>
          if inp.show_error then s else s ++ [inp.new_handle]
      | Op.cancel n _ => s.erase n
      | Op.onClosed none => s
      | Op.onClosed (some h) => s.erase h
      | Op.onView none _ => s
      | Op.onView (some h) _ => s.erase h := by
  cases op with
  | showNote env c inp =>
    cases he : inp.show_error <;>
      simp [step, ShowNotification, he]
  | cancel n e => simp [step, CancelNotification, DeleteNotification]
  | onClosed n => cases n <;> simp [step, OnNotificationClosed, DeleteNotification]
  | onView n a => cases n <;> simp [step, OnNotificationView, DeleteNotification]

/-- C2: a show call on which `notify_notification_show` reports a GError
logs the error and abandons the operation: the list is untouched, the
delegate never sees `NotificationDisplayed`, no cancel closure is stored,
and `notify_notification_show` is called exactly once (no retry). -/
theorem show_error_logged_and_abandoned (env : UnityEnv) (c : UnityCache)
    (s : List Nat) (title body : String) (icon_nothing : Bool) (nh : Nat)
    (cp : Bool) :
    (ShowNotification env c s ⟨title, body, icon_nothing, nh, true, cp⟩).notifications = s ∧
    (ShowNotification env c s ⟨title, body, icon_nothing, nh, true, cp⟩).displayed_called = false ∧
    (ShowNotification env c s ⟨title, body, icon_nothing, nh, true, cp⟩).cancel_installed = false ∧
    LibCall.log_error "notify_notification_show"
      ∈ (ShowNotification env c s ⟨title, body, icon_nothing, nh, true, cp⟩).calls ∧
    LibCall.notification_displayed
      ∉ (ShowNotification env c s ⟨title, body, icon_nothing, nh, true, cp⟩).calls ∧
    ((ShowNotification env c s ⟨title, body, icon_nothing, nh, true, cp⟩).calls.count
        LibCall.notification_show) = 1 := by
  cases hu : (UnityIsRunning env c).result <;> cases icon_nothing <;>
    simp [ShowNotification, hu, List.count_append, List.count_cons]

/-- C3 counterexample: with one tracked handle 7, a cancel whose
`notify_notification_close` reports a GError still notifies the delegate
(`NotificationClosed` is in the trace) and still removes the handle, so the
operation is not abandoned after logging. -/
theorem cancel_error_not_abandoned_cex :
    LibCall.notification_closed ∈ (CancelNotification [7] 7 true).calls ∧
    (CancelNotification [7] 7 true).notifications ≠ [7] := by
  decide

/-- C3 amended: a cancel call on which `notify_notification_close` reports a
GError logs the error but then proceeds exactly as on success: the delegate
sees `NotificationClosed` and the handle is removed from the tracked
list. -/
theorem cancel_error_logged_then_proceeds (s : List Nat) (n : Nat) :
    LibCall.log_error "notify_notification_close"
      ∈ (CancelNotification s n true).calls ∧
    LibCall.notification_closed ∈ (CancelNotification s n true).calls ∧
    (CancelNotification s n true).notifications = s.erase n := by
  simp [CancelNotification, DeleteNotification]

/-- C4: every lifecycle event is relayed to the delegate: a successful show
calls `NotificationDisplayed`, the closed callback with a non-null handle
calls `NotificationClosed`, and the view callback with a non-null handle
calls `NotificationClick`. -/
theorem lifecycle_events_relayed (env : UnityEnv) (c : UnityCache)
    (s : List Nat) (title body : String) (icon_nothing : Bool) (nh : Nat)
    (cp : Bool) (h : Nat) (a : String) :
    (ShowNotification env c s ⟨title, body, icon_nothing, nh, false, cp⟩).displayed_called = true ∧
    LibCall.notification_displayed
      ∈ (ShowNotification env c s ⟨title, body, icon_nothing, nh, false, cp⟩).calls ∧
    LibCall.notification_closed ∈ (OnNotificationClosed s (some h)).calls ∧
    LibCall.notification_click ∈ (OnNotificationView s (some h) a).calls := by
  refine ⟨?_, ?_, by simp [OnNotificationClosed], by simp [OnNotificationView]⟩
  · simp [ShowNotification]
  · cases hu : (UnityIsRunning env c).result <;> cases icon_nothing <;>
      simp [ShowNotification, hu]

/-- C5: Create returns a presenter exactly when one of libnotify.so.4,
libnotify.so.1, libnotify.so loads and the library is already initialised
or `notify_init` succeeds; the load attempts are made in that order,
stopping at the first success. -/
theorem create_exactly_on_init_success (e : LibnotifyEnv) :
    ((Create e).isSome
      = ((e.load_so4 || e.load_so1 || e.load_so)
         && (e.is_initted || e.init_ok))) ∧
    ((Init e).load_attempts
      = if e.load_so4 then ["libnotify.so.4"]
        else if e.load_so1 then ["libnotify.so.4", "libnotify.so.1"]
        else ["libnotify.so.4", "libnotify.so.1", "libnotify.so"]) := by
  obtain ⟨l4, l1, l0, ii, ik⟩ := e
  cases l4 <;> cases l1 <;> cases l0 <;> cases ii <;> cases ik <;>
    exact ⟨rfl, rfl⟩

/-- C7: when the icon draws something it is converted to a GdkPixbuf and set
as the notification image before `notify_notification_show` runs; when it
draws nothing, no conversion and no image-setting happens. -/
theorem icon_converted_and_set_before_show (env : UnityEnv) (c : UnityCache)
    (s : List Nat) (title body : String) (nh : Nat) (er cp : Bool) :
    (∃ l₁ l₂ l₃ : List LibCall,
      (ShowNotification env c s ⟨title, body, false, nh, er, cp⟩).calls
        = l₁ ++ LibCall.pixbuf_from_bitmap :: LibCall.set_image_from_pixbuf
            :: (l₂ ++ LibCall.notification_show :: l₃)) ∧
    LibCall.pixbuf_from_bitmap
      ∉ (ShowNotification env c s ⟨title, body, true, nh, er, cp⟩).calls ∧
    LibCall.set_image_from_pixbuf
      ∉ (ShowNotification env c s ⟨title, body, true, nh, er, cp⟩).calls := by
  refine ⟨?_, ?_, ?_⟩
  · cases hu : (UnityIsRunning env c).result <;> cases er
    · exact ⟨[LibCall.notification_new title body, LibCall.set_data "delegate",
              LibCall.signal_connect "closed", LibCall.add_action "default" "View"],
             [LibCall.set_timeout (-1), LibCall.unref_pixbuf],
             [LibCall.notification_displayed],
             by simp [ShowNotification, hu]⟩
    · exact ⟨[LibCall.notification_new title body, LibCall.set_data "delegate",
              LibCall.signal_connect "closed", LibCall.add_action "default" "View"],
             [LibCall.set_timeout (-1), LibCall.unref_pixbuf],
             [LibCall.log_error "notify_notification_show",
              LibCall.unref_notification],
             by simp [ShowNotification, hu]⟩
    · exact ⟨[LibCall.notification_new title body, LibCall.set_data "delegate",
              LibCall.signal_connect "closed"],
             [LibCall.set_timeout (-1), LibCall.unref_pixbuf],
             [LibCall.notification_displayed],
             by simp [ShowNotification, hu]⟩
    · exact ⟨[LibCall.notification_new title body, LibCall.set_data "delegate",
              LibCall.signal_connect "closed"],
             [LibCall.set_timeout (-1), LibCall.unref_pixbuf],
             [LibCall.log_error "notify_notification_show",
              LibCall.unref_notification],
             by simp [ShowNotification, hu]⟩
  · cases hu : (UnityIsRunning env c).result <;> cases er <;>
      simp [ShowNotification, hu]
  · cases hu : (UnityIsRunning env c).result <;> cases er <;>
      simp [ShowNotification, hu]

/-- C8: a show call adds an action exactly when `UnityIsRunning` returns
false, and the only action ever added is "default" labeled "View". -/
theorem action_added_iff_not_unity (env : UnityEnv) (c : UnityCache)
    (s : List Nat) (title body : String) (icon_nothing : Bool) (nh : Nat)
    (er cp : Bool) (a l : String) :
    LibCall.add_action a l
        ∈ (ShowNotification env c s ⟨title, body, icon_nothing, nh, er, cp⟩).calls
      ↔ ((UnityIsRunning env c).result = false ∧ a = "default" ∧ l = "View") := by
  cases hu : (UnityIsRunning env c).result <;> cases icon_nothing <;> cases er <;>
    simp [ShowNotification, hu]

/-- Length of the recorded call sequence equals the number of calls made. -/
theorem length_runUnityCalls (envs : List UnityEnv) (c : UnityCache) :
    (runUnityCalls envs c).length = envs.length := by
  induction envs generalizing c with
  | nil => rfl
  | cons e rest ih =>
    cases he : e.electron_use_ubuntu_notifier <;>
      cases hr : c.unity_has_result <;>
        simp [runUnityCalls, UnityIsRunning, he, hr, ih]

/-- Once the statics record a result, every later call returns the recorded
boolean (or true under the environment variable) and never scans again. -/
theorem runUnityCalls_steady (envs : List UnityEnv) (c : UnityCache)
    (h : c.unity_has_result = true) :
    runUnityCalls envs c
      = envs.map (fun e =>
          (e.electron_use_ubuntu_notifier || c.unity_result, false)) := by
  induction envs with
  | nil => rfl
  | cons e rest ih =>
    cases he : e.electron_use_ubuntu_notifier <;>
      simp [runUnityCalls, UnityIsRunning, he, h, ih]

/-- Starting from the fresh statics, there is a single boolean v such that
every call returns true when the environment variable is set at that call
and v otherwise. -/
theorem runUnityCalls_initial_result (envs : List UnityEnv) :
    ∃ v : Bool, ∀ i : Nat, i < envs.length →
      ((runUnityCalls envs initialUnityCache).getD i (true, false)).1
        = ((envs.getD i ⟨true, []⟩).electron_use_ubuntu_notifier || v) := by
  induction envs with
  | nil => exact ⟨true, fun i hi => absurd hi (by simp)⟩
  | cons e rest ih =>
    cases he : e.electron_use_ubuntu_notifier
    · refine ⟨e.usr_lib_files.any (fun f => f.startsWith "/usr/lib/libunity-"),
        fun i hi => ?_⟩
      cases i with
      | zero => simp [runUnityCalls, UnityIsRunning, he, initialUnityCache]
      | succ i =>
        have hi' : i < rest.length := by simpa using hi
        have hsteady := runUnityCalls_steady rest
          ⟨true, e.usr_lib_files.any (fun f => f.startsWith "/usr/lib/libunity-")⟩ rfl
        simp [runUnityCalls, UnityIsRunning, he, initialUnityCache, hsteady,
          List.getD_eq_getElem?_getD, List.getElem?_map, hi']
    · obtain ⟨v, hv⟩ := ih
      refine ⟨v, fun i hi => ?_⟩
      cases i with
      | zero => simp [runUnityCalls, UnityIsRunning, he, initialUnityCache]
      | succ i =>
        have hi' : i < rest.length := by simpa using hi
        have := hv i hi'
        simpa [runUnityCalls, UnityIsRunning, he, initialUnityCache] using this

/-- C9: across any sequence of calls starting from the fresh statics, the
/usr/lib enumeration runs at most once, and any two calls made under the
same state of the environment variable return the same result. -/
theorem unity_detection_cached (envs : List UnityEnv) :
    ((runUnityCalls envs initialUnityCache).countP (fun p => p.2) ≤ 1) ∧
    (∀ i j : Nat, i < envs.length → j < envs.length →
      (envs.getD i ⟨true, []⟩).electron_use_ubuntu_notifier
        = (envs.getD j ⟨true, []⟩).electron_use_ubuntu_notifier →
      ((runUnityCalls envs initialUnityCache).getD i (true, false)).1
        = ((runUnityCalls envs initialUnityCache).getD j (true, false)).1) := by
  constructor
  · induction envs with
    | nil => simp [runUnityCalls]
    | cons e rest ih =>
      cases he : e.electron_use_ubuntu_notifier
      · have hsteady := runUnityCalls_steady rest
          ⟨true, e.usr_lib_files.any (fun f => f.startsWith "/usr/lib/libunity-")⟩ rfl
        simp [runUnityCalls, UnityIsRunning, he, initialUnityCache, hsteady,
          List.countP_cons, List.countP_map]
      · simpa [runUnityCalls, UnityIsRunning, he, initialUnityCache,
          List.countP_cons] using ih
  · obtain ⟨v, hv⟩ := runUnityCalls_initial_result envs
    intro i j hi hj heq
    rw [hv i hi, hv j hj, heq]

end brightray
